import Mathlib

/-!
Shallow embedding of `src/Daily_WeatherNONinf.py` (WeatherScrape): a daily
weather scraper that converts calendar dates to a "Prophix" fiscal date code,
maps raw station records onto six fixed target locations (`process_data`),
and appends the resulting rows to a CSV table.

Python machine behaviour is modelled explicitly:
  * JSON values are `JVal` (null / string / integer); absent dict keys are
    `Option.none` on the record structure.
  * `r.get(k, default)` is `Option.getD`; Python truthiness is `truthy`.
  * `str(x)` is `pyStr`; `needle in hay` on strings is `pyIn`.
  * `datetime` subtraction is modelled with CPython's proleptic-Gregorian
    ordinal (`toOrdinal`, CPython `_ymd2ord`); the specification side uses
    an independent civil-calendar day count (`rataDie`) and the two are
    proved to agree on valid dates.
-/

namespace WeatherScrape

/-- A JSON scalar value as the scraper sees it: Python `None`, a string,
or an integer. -/
inductive JVal : Type
  | jnull : JVal
  | jstr (s : String) : JVal
  | jnum (n : Int) : JVal
deriving DecidableEq

/-- Python truthiness of a JSON scalar: `None` and `''` and `0` are falsy. -/
def JVal.truthy : JVal → Bool
  | .jnull => false
  | .jstr s => s ≠ ""
  | .jnum n => n ≠ 0

/-- Python `str(x)` for the scalar values above (`str(None) = "None"`). -/
def JVal.pyStr : JVal → String
  | .jnull => "None"
  | .jstr s => s
  | .jnum n => toString n

/-- A calendar date, as in Python `datetime` (year, month, day). -/
structure Date where
  year : Nat
  month : Nat
  day : Nat
deriving DecidableEq

/-- Gregorian leap-year rule, CPython `_is_leap`. -/
def isLeapYear (y : Nat) : Bool := y % 4 == 0 && (y % 100 != 0 || y % 400 == 0)

/-- Days in a month, CPython `_days_in_month`. -/
def daysInMonth (y m : Nat) : Nat :=
  if m = 2 then (if isLeapYear y then 29 else 28)
  else [31,28,31,30,31,30,31,31,30,31,30,31].getD (m - 1) 0

/-- A constructible `datetime.date`: the ranges CPython enforces. -/
def Date.Valid (d : Date) : Prop :=
  1 ≤ d.year ∧ d.year ≤ 9999 ∧ 1 ≤ d.month ∧ d.month ≤ 12 ∧
    1 ≤ d.day ∧ d.day ≤ daysInMonth d.year d.month

instance (d : Date) : Decidable d.Valid := by
  unfold Date.Valid; infer_instance

/-- CPython `_days_before_year`. -/
def daysBeforeYear (y : Nat) : Nat :=
  (y - 1) * 365 + (y - 1) / 4 - (y - 1) / 100 + (y - 1) / 400

/-- CPython `_days_before_month` table (index by month, 1-based). -/
def daysBeforeMonth (m : Nat) : Nat :=
  [0,31,59,90,120,151,181,212,243,273,304,334].getD (m - 1) 0

/-- CPython `_ymd2ord`: the proleptic-Gregorian ordinal of a date
(Jan 1 of year 1 is ordinal 1).  `datetime` subtraction `(a - b).days`
is `toOrdinal a - toOrdinal b`. -/
def toOrdinal (d : Date) : Nat :=
  daysBeforeYear d.year + daysBeforeMonth d.month +
    (if 2 < d.month ∧ isLeapYear d.year = true then 1 else 0) + d.day

/-- Independent civil-calendar day count (shifted to a March-first year),
used on the specification side as the meaning of "calendar days". -/
def rataDie (d : Date) : Nat :=
  (rataYear d / 400) * 146097 +
    ((rataYear d % 400) * 365 + (rataYear d % 400) / 4 - (rataYear d % 400) / 100 +
      ((153 * ((d.month + 9) % 12) + 2) / 5 + (d.day - 1)))
where
  /-- The civil year shifted to start on March 1. -/
  rataYear (d : Date) : Nat := if d.month ≤ 2 then d.year - 1 else d.year

/-- Left-pad a decimal string with zeros to width `w`. -/
def padZeros (w : Nat) (s : String) : String :=
  String.mk (List.replicate (w - s.length) '0') ++ s

/-- Python's `f"{n:0wd}"` on an integer: zero-pad to width `w`, the sign
counting toward the width. -/
def pyFmt0 (w : Nat) (n : Int) : String :=
  if n < 0 then "-" ++ padZeros (w - 1) (toString n.natAbs)
  else padZeros w (toString n.toNat)

/-- `get_prophix_date` from the source: fiscal year starts May 1; the code
formats `f"{start_year}D{day_num:03d}"` where `day_num` is the
`datetime` day difference from May 1 of the fiscal year, plus one. -/
def get_prophix_date (d : Date) : String :=
  let start_year := if 5 ≤ d.month then d.year else d.year - 1
  let day_num : Int := ((toOrdinal d : Int) - (toOrdinal ⟨start_year, 5, 1⟩ : Int)) + 1
  toString start_year ++ "D" ++ pyFmt0 3 day_num

/-- Day contribution of the whole years `1 … y` as CPython counts them. -/
def yearTail (y : Nat) : Nat := y * 365 + y / 4 - y / 100 + y / 400

/-- Day contribution of the whole years `1 … y` as the era/year-of-era
decomposition counts them. -/
def eraTail (y : Nat) : Nat :=
  (y / 400) * 146097 + ((y % 400) * 365 + (y % 400) / 4 - (y % 400) / 100)

/-- One when `y` is a leap year, zero otherwise. -/
def leapBit (y : Nat) : Nat := if isLeapYear y then 1 else 0

/-- Specification-side fiscal year: the calendar year if the month is May
or later, the previous year otherwise. -/
def fiscalYearSpec (d : Date) : Nat :=
  if 5 ≤ d.month then d.year else d.year - 1

/-- Specification-side day number: calendar days from May 1 of the fiscal
year to `d`, counted with the independent `rataDie`, plus one. -/
def dayNumberSpec (d : Date) : Nat :=
  rataDie d - rataDie ⟨fiscalYearSpec d, 5, 1⟩ + 1

/-- Specification-side Prophix string: `{fiscalYear}D{dayNumber}` with the
day number zero-padded to three digits. -/
def prophixSpec (d : Date) : String :=
  toString (fiscalYearSpec d) ++ "D" ++ padZeros 3 (toString (dayNumberSpec d))

/-- Python `date_obj.strftime('%Y-%m-%d')`: zero-padded ISO date string. -/
def dateStr (d : Date) : String :=
  padZeros 4 (toString d.year) ++ "-" ++ padZeros 2 (toString d.month) ++ "-" ++
    padZeros 2 (toString d.day)

/-- A station record from the upstream payload: a string-keyed dict of which
the scraper reads nine keys.  `Option.none` models an absent key,
`some .jnull` a key present with JSON `null`. -/
structure Record where
  display_name : Option JVal := none
  maxtemp : Option JVal := none
  mintemp : Option JVal := none
  avewindspd : Option JVal := none
  maxgust : Option JVal := none
  ttlwindmiles : Option JVal := none
  newsnow : Option JVal := none
  depth : Option JVal := none
  ttlsnowfall : Option JVal := none
deriving DecidableEq

/-- Python `r.get(k)` — absent key defaults to `None`. -/
def getN (f : Option JVal) : JVal := f.getD .jnull

/-- Python `r.get(k, '')` — absent key defaults to the empty string. -/
def getE (f : Option JVal) : JVal := f.getD (.jstr "")

/-- Python `a or b` on JSON scalars: `a` when truthy, else `b`. -/
def pyOr (a b : JVal) : JVal := if a.truthy then a else b

/-- `charsStart needle hay`: `needle` begins `hay`. -/
def charsStart : List Char → List Char → Bool
  | [], _ => true
  | _ :: _, [] => false
  | a :: as, b :: bs => a == b && charsStart as bs

/-- `charsContain hay needle`: `needle` occurs contiguously in `hay`. -/
def charsContain : List Char → List Char → Bool
  | [], needle => needle.isEmpty
  | h :: t, needle => charsStart needle (h :: t) || charsContain t needle

/-- Python `needle in hay` on strings (contiguous substring test). -/
def pyIn (needle hay : String) : Bool := charsContain hay.toList needle.toList

/-- Python `.lower()` over the characters of a string (ASCII case fold,
which covers every keyword and station name the scraper compares). -/
def lowerStr (s : String) : String := String.mk (s.toList.map Char.toLower)

/-- `str(r.get('display_name','')).lower()` from the source. -/
def dName (r : Record) : String := lowerStr (getE r.display_name).pyStr

/-- `any(k in d_name for k in keywords)` from the source. -/
def matchesAny (kws : List String) (r : Record) : Bool :=
  kws.any (fun k => pyIn k (dName r))

/-- Python `{}`: the empty dict (used as the `next(..., {})` default). -/
def emptyRec : Record := {}

/-- The synthesized Raymer record from `process_data`: temperature fields
from the first station whose lowered name contains `"raymer 9,360"`, wind
fields from the first containing `"raymer wind"`, snow fields with
`or`-fallback from the temperature source to the wind source. -/
def raymerMerged (rows : List Record) : Record :=
  let t := (rows.find? (fun r => pyIn "raymer 9,360" (dName r))).getD emptyRec
  let w := (rows.find? (fun r => pyIn "raymer wind" (dName r))).getD emptyRec
  { display_name := some (.jstr "Raymer")
    maxtemp := some (getN t.maxtemp)
    mintemp := some (getN t.mintemp)
    avewindspd := some (getN w.avewindspd)
    maxgust := some (getN w.maxgust)
    ttlwindmiles := some (getN w.ttlwindmiles)
    newsnow := some (pyOr (getN t.newsnow) (getN w.newsnow))
    depth := some (pyOr (getN t.depth) (getN w.depth))
    ttlsnowfall := some (pyOr (getN t.ttlsnowfall) (getN w.ttlsnowfall)) }

/-- The `target_defs` list from the source: canonical name, keyword list,
and the `is_merged` flag. -/
def target_defs : List (String × List String × Bool) :=
  [("Summit", ["summit"], false),
   ("RV_Bowl", ["rbowl", "rendezvous bowl"], false),
   ("Raymer", [], true),
   ("MidMtn", ["mid mtn", "mid mountain"], false),
   ("Buff", ["buff"], false),
   ("Base", ["base"], false)]

/-- One output row of the scraper (one CSV line's worth of data).  The last
eight fields keep the raw JSON scalar the code put in the dict. -/
structure OutputRow where
  prophixDate : String
  date : String
  location : String
  newSno : JVal
  snoDepth : JVal
  snoFallTot : JVal
  maxTemp : JVal
  minTemp : JVal
  avgWind : JVal
  maxGust : JVal
  totalWind : JVal
deriving DecidableEq

/-- The `new_row` dict built in `process_data` for a found station. -/
def mkRow (pfx ds loc : String) (st : Record) : OutputRow :=
  { prophixDate := pfx
    date := ds
    location := loc
    newSno := getE st.newsnow
    snoDepth := getE st.depth
    snoFallTot := getE st.ttlsnowfall
    maxTemp := getE st.maxtemp
    minTemp := getE st.mintemp
    avgWind := getE st.avewindspd
    maxGust := getE st.maxgust
    totalWind := getE st.ttlwindmiles }

/-- One iteration of the target loop in `process_data`: the found (or
synthesized) station, if any, mapped to its output row. -/
def emitRow (rows : List Record) (rm : Record) (pfx ds : String)
    (t : String × List String × Bool) : Option OutputRow :=
  let found : Option Record :=
    if t.2.2 && (t.1 == "Raymer") then some rm
    else rows.find? (fun r => matchesAny t.2.1 r)
  found.map (mkRow pfx ds t.1)

/-- The fetched JSON payload as the mapper tests it: its Python truthiness,
whether the `'data'` key is present, and that key's list of records. -/
structure JPayload where
  isTruthy : Bool
  hasData : Bool
  data : List Record

/-- `process_data` from the source: guard the payload, compute the Prophix
date, synthesize Raymer, then scan the six targets in fixed order. -/
def process_data (p : JPayload) (d : Date) : List OutputRow :=
  if !p.isTruthy || !p.hasData then []
  else
    let pfx := get_prophix_date d
    let rm := raymerMerged p.data
    target_defs.filterMap (emitRow p.data rm pfx (dateStr d))

/-- The fixed CSV column order from `main`. -/
def csvHeader : String :=
  "ProphixDate,Date,Location,NewSno,SnoDepth,SnoFall Tot,Max Temp,Min Temp,AvgWind,MaxGust,TotalWind"

/-- How `pandas.to_csv` renders one cell: `None` becomes empty, strings and
numbers their text, quoted minimally when a delimiter/quote is present. -/
def csvCell (v : JVal) : String :=
  let s := match v with
    | .jnull => ""
    | .jstr t => t
    | .jnum n => toString n
  if s.toList.any (fun c => c == ',' || c == '"' || c == '\n' || c == '\r') then
    "\"" ++ String.mk (s.toList.flatMap (fun c => if c == '"' then ['"', '"'] else [c])) ++ "\""
  else s

/-- One CSV data line for an output row, in the fixed column order. -/
def csvLine (r : OutputRow) : String :=
  String.intercalate ","
    [csvCell (.jstr r.prophixDate), csvCell (.jstr r.date), csvCell (.jstr r.location),
     csvCell r.newSno, csvCell r.snoDepth, csvCell r.snoFallTot, csvCell r.maxTemp,
     csvCell r.minTemp, csvCell r.avgWind, csvCell r.maxGust, csvCell r.totalWind]

/-- The write in `main`: `df_new.to_csv(path, mode='a', header=not file_exists)`.
The file is a list of lines, `none` when it does not exist yet. -/
def writeCsv (file : Option (List String)) (rows : List OutputRow) : List String :=
  match file with
  | none => csvHeader :: rows.map csvLine
  | some ls => ls ++ rows.map csvLine

/-! ## Concrete fixtures used to exercise the definitions -/

/-- A small payload in which every target except Buff has a matching
station. -/
def exampleRows : List Record :=
  [{ display_name := some (.jstr "Summit Study Plot"), maxtemp := some (.jstr "30") },
   { display_name := some (.jstr "Rendezvous Bowl"), newsnow := some (.jstr "4") },
   { display_name := some (.jstr "Mid Mtn"), depth := some (.jstr "20") },
   { display_name := some (.jstr "Base Plaza") }]

/-- A fixed target date for the examples. -/
def exampleDate : Date := ⟨2026, 5, 1⟩

/-- The example payload wrapped as the mapper receives it. -/
def examplePayload : JPayload := ⟨true, true, exampleRows⟩

/-- A payload whose `'data'` key is missing. -/
def malformedPayload : JPayload := ⟨true, false, []⟩

/-- A well-formed payload whose record list is empty. -/
def emptyDataPayload : JPayload := ⟨true, true, []⟩

/-- A temperature-side partial Raymer station. -/
def raymerTempRec : Record :=
  { display_name := some (.jstr "Raymer 9,360 ft"), maxtemp := some (.jstr "28"),
    mintemp := some (.jstr "10"), newsnow := some (.jstr "3") }

/-- A wind-side partial Raymer station. -/
def raymerWindRec : Record :=
  { display_name := some (.jstr "Raymer Wind"), avewindspd := some (.jstr "12"),
    maxgust := some (.jstr "40"), ttlwindmiles := some (.jstr "288"),
    depth := some (.jstr "15") }

/-- The two partial Raymer stations as a payload record list. -/
def raymerRows : List Record := [raymerTempRec, raymerWindRec]

/-- The single row the mapper emits for a payload with an empty record
list: the unconditionally synthesized Raymer row. -/
def rayOnlyRow : OutputRow :=
  mkRow (get_prophix_date exampleDate) (dateStr exampleDate) "Raymer" (raymerMerged [])

/-- Degenerate records: missing keys, `null` display names and values. -/
def weirdRows : List Record :=
  [{}, { display_name := some .jnull }, { display_name := some (.jnum 0), maxtemp := some .jnull },
   { display_name := some (.jstr "BASE"), newsnow := some .jnull }]

/-- The degenerate payload wrapped for the mapper. -/
def weirdPayload : JPayload := ⟨true, true, weirdRows⟩

/-- The station of the specification's matching example. -/
def rvBowlStation : Record := { display_name := some (.jstr "RENDEZVOUS BOWL Upper") }

/-! ## Calendar lemmas: CPython ordinals agree with the civil day count -/

theorem yearTail_eq_eraTail (y : Nat) : yearTail y = eraTail y := by
  obtain ⟨q, r, hr, rfl⟩ : ∃ q r, r < 400 ∧ y = 400 * q + r :=
    ⟨y / 400, y % 400, Nat.mod_lt _ (by norm_num), (Nat.div_add_mod y 400).symm⟩
  rw [yearTail, eraTail]
  have h400 : (400 * q + r) / 400 = q := by omega
  have hm400 : (400 * q + r) % 400 = r := by omega
  have h4 : (400 * q + r) / 4 = 100 * q + r / 4 := by omega
  have h100 : (400 * q + r) / 100 = 4 * q + r / 100 := by omega
  rw [h400, hm400, h4, h100]
  omega

theorem leapBit_spec (y : Nat) :
    (leapBit y = 1 ∧ y % 4 = 0 ∧ (y % 100 ≠ 0 ∨ y % 400 = 0)) ∨
    (leapBit y = 0 ∧ ¬(y % 4 = 0 ∧ (y % 100 ≠ 0 ∨ y % 400 = 0))) := by
  rw [leapBit]
  by_cases h : isLeapYear y = true
  · exact .inl ⟨by rw [if_pos h], by simpa [isLeapYear] using h⟩
  · exact .inr ⟨by rw [if_neg h], by simpa [isLeapYear] using h⟩

theorem yearTail_succ (k : Nat) :
    yearTail k + leapBit (k + 1) + 365 = yearTail (k + 1) := by
  rcases leapBit_spec (k + 1) with ⟨hb, hm4, hrest⟩ | ⟨hb, hneg⟩
  · rcases hrest with h | h
    · have e4 : (k + 1) / 4 = k / 4 + 1 := by omega
      have e100 : (k + 1) / 100 = k / 100 := by omega
      have e400 : (k + 1) / 400 = k / 400 := by omega
      rw [hb, yearTail, yearTail, e4, e100, e400]
      omega
    · have e4 : (k + 1) / 4 = k / 4 + 1 := by omega
      have e100 : (k + 1) / 100 = k / 100 + 1 := by omega
      have e400 : (k + 1) / 400 = k / 400 + 1 := by omega
      rw [hb, yearTail, yearTail, e4, e100, e400]
      omega
  · by_cases hm4 : (k + 1) % 4 = 0
    · have hm100 : (k + 1) % 100 = 0 := by tauto
      have hm400 : (k + 1) % 400 ≠ 0 := by tauto
      have e4 : (k + 1) / 4 = k / 4 + 1 := by omega
      have e100 : (k + 1) / 100 = k / 100 + 1 := by omega
      have e400 : (k + 1) / 400 = k / 400 := by omega
      rw [hb, yearTail, yearTail, e4, e100, e400]
      omega
    · have e4 : (k + 1) / 4 = k / 4 := by omega
      have e100 : (k + 1) / 100 = k / 100 := by omega
      have e400 : (k + 1) / 400 = k / 400 := by omega
      rw [hb, yearTail, yearTail, e4, e100, e400]
      omega

theorem daysBeforeYear_eq (y : Nat) : daysBeforeYear y = yearTail (y - 1) := by
  rw [daysBeforeYear, yearTail, Nat.mul_comm]

theorem toOrdinal_def (y m dd : Nat) :
    toOrdinal ⟨y, m, dd⟩ =
      yearTail (y - 1) + daysBeforeMonth m +
        (if 2 < m ∧ isLeapYear y = true then 1 else 0) + dd := by
  rw [toOrdinal, daysBeforeYear_eq]

theorem rataDie_def (y m dd : Nat) :
    rataDie ⟨y, m, dd⟩ =
      eraTail (if m ≤ 2 then y - 1 else y) +
        ((153 * ((m + 9) % 12) + 2) / 5 + (dd - 1)) := by
  rw [rataDie, rataDie.rataYear, eraTail]
  by_cases h : m ≤ 2 <;> simp only [h, if_true, if_false, if_pos, if_neg] <;> omega

/-- CPython's ordinal and the civil day count differ by the constant 305
on every constructible date. -/
theorem toOrdinal_add_305 (d : Date) (h : d.Valid) :
    toOrdinal d + 305 = rataDie d := by
  obtain ⟨y, m, dd⟩ := d
  simp only [Date.Valid] at h
  obtain ⟨hy1, hy2, hm1, hm2, hd1, hd2⟩ := h
  rw [toOrdinal_def, rataDie_def]
  rcases Nat.lt_or_ge 2 m with hm3 | hm3
  · have hite : (if 2 < m ∧ isLeapYear y = true then 1 else 0) = leapBit y := by
      rw [leapBit]
      by_cases hL : isLeapYear y = true
      · rw [if_pos ⟨hm3, hL⟩, if_pos hL]
      · rw [if_neg (fun hc => hL hc.2), if_neg hL]
    rw [hite, if_neg (show ¬m ≤ 2 by omega), ← yearTail_eq_eraTail]
    have hys : yearTail (y - 1) + leapBit y + 365 = yearTail y := by
      have h' := yearTail_succ (y - 1)
      have hk : y - 1 + 1 = y := by omega
      rwa [hk] at h'
    rw [← hys]
    interval_cases m <;>
      simp only [show daysBeforeMonth 3 = 59 from rfl, show daysBeforeMonth 4 = 90 from rfl,
        show daysBeforeMonth 5 = 120 from rfl, show daysBeforeMonth 6 = 151 from rfl,
        show daysBeforeMonth 7 = 181 from rfl, show daysBeforeMonth 8 = 212 from rfl,
        show daysBeforeMonth 9 = 243 from rfl, show daysBeforeMonth 10 = 273 from rfl,
        show daysBeforeMonth 11 = 304 from rfl, show daysBeforeMonth 12 = 334 from rfl] <;>
      omega
  · rw [if_neg (fun hc => absurd hc.1 (by omega)), if_pos hm3, ← yearTail_eq_eraTail]
    interval_cases m <;>
      simp only [show daysBeforeMonth 1 = 0 from rfl, show daysBeforeMonth 2 = 31 from rfl] <;>
      omega

/-- May 1 of the fiscal year is a constructible date whenever the fiscal
year is at least 1. -/
theorem fiscalStart_valid (d : Date) (h : d.Valid) (hfy : 1 ≤ fiscalYearSpec d) :
    Date.Valid ⟨fiscalYearSpec d, 5, 1⟩ := by
  obtain ⟨y, m, dd⟩ := d
  simp only [Date.Valid] at h
  obtain ⟨hy1, hy2, hm1, hm2, hd1, hd2⟩ := h
  have h31 : ∀ z : Nat, daysInMonth z 5 = 31 := fun z => rfl
  simp only [Date.Valid, fiscalYearSpec] at hfy ⊢
  rcases Nat.lt_or_ge m 5 with hm5 | hm5
  · rw [if_neg (by omega)] at hfy ⊢
    exact ⟨hfy, by omega, by omega, by omega, by omega, by rw [h31]; omega⟩
  · rw [if_pos hm5] at hfy ⊢
    exact ⟨hfy, by omega, by omega, by omega, by omega, by rw [h31]; omega⟩

/-- The fiscal-year May 1 never lies after the date itself. -/
theorem toOrdinal_fiscalStart_le (d : Date) (h : d.Valid) (hfy : 1 ≤ fiscalYearSpec d) :
    toOrdinal ⟨fiscalYearSpec d, 5, 1⟩ ≤ toOrdinal d := by
  obtain ⟨y, m, dd⟩ := d
  simp only [Date.Valid] at h
  obtain ⟨hy1, hy2, hm1, hm2, hd1, hd2⟩ := h
  simp only [fiscalYearSpec] at hfy ⊢
  rcases Nat.lt_or_ge m 5 with hm5 | hm5
  · rw [if_neg (by omega)] at hfy ⊢
    rw [toOrdinal_def, toOrdinal_def]
    have hys : yearTail (y - 1 - 1) + leapBit (y - 1) + 365 = yearTail (y - 1) := by
      have h' := yearTail_succ (y - 1 - 1)
      have hk : y - 1 - 1 + 1 = y - 1 := by omega
      rwa [hk] at h'
    have hb1 : (if 2 < 5 ∧ isLeapYear (y - 1) = true then 1 else 0) = leapBit (y - 1) := by
      rw [leapBit]
      by_cases hL : isLeapYear (y - 1) = true
      · rw [if_pos ⟨by norm_num, hL⟩, if_pos hL]
      · rw [if_neg (fun hc => hL hc.2), if_neg hL]
    rw [hb1, ← hys, show daysBeforeMonth 5 = 120 from rfl]
    omega
  · rw [if_pos hm5] at hfy ⊢
    rw [toOrdinal_def, toOrdinal_def]
    have hb1 : (if 2 < 5 ∧ isLeapYear y = true then 1 else 0) = leapBit y := by
      rw [leapBit]
      by_cases hL : isLeapYear y = true
      · rw [if_pos ⟨by norm_num, hL⟩, if_pos hL]
      · rw [if_neg (fun hc => hL hc.2), if_neg hL]
    have hb2 : (if 2 < m ∧ isLeapYear y = true then 1 else 0) = leapBit y := by
      rw [leapBit]
      by_cases hL : isLeapYear y = true
      · rw [if_pos ⟨by omega, hL⟩, if_pos hL]
      · rw [if_neg (fun hc => hL hc.2), if_neg hL]
    rw [hb1, hb2, show daysBeforeMonth 5 = 120 from rfl]
    interval_cases m <;>
      simp only [show daysBeforeMonth 5 = 120 from rfl, show daysBeforeMonth 6 = 151 from rfl,
        show daysBeforeMonth 7 = 181 from rfl, show daysBeforeMonth 8 = 212 from rfl,
        show daysBeforeMonth 9 = 243 from rfl, show daysBeforeMonth 10 = 273 from rfl,
        show daysBeforeMonth 11 = 304 from rfl, show daysBeforeMonth 12 = 334 from rfl] <;>
      omega

/-- The code's signed day count agrees with the specification's day
number on every constructible date. -/
theorem dayNumber_int (d : Date) (h : d.Valid) (hfy : 1 ≤ fiscalYearSpec d) :
    ((toOrdinal d : Int) - (toOrdinal ⟨fiscalYearSpec d, 5, 1⟩ : Int)) + 1 =
      (dayNumberSpec d : Int) := by
  have h1 := toOrdinal_add_305 d h
  have h2 := toOrdinal_add_305 ⟨fiscalYearSpec d, 5, 1⟩ (fiscalStart_valid d h hfy)
  have h3 := toOrdinal_fiscalStart_le d h hfy
  rw [dayNumberSpec]
  omega

/-- The code's Prophix string equals the specification's string on every
constructible date whose fiscal year is constructible too. -/
theorem get_prophix_eq (d : Date) (h : d.Valid) (hfy : 1 ≤ fiscalYearSpec d) :
    get_prophix_date d = prophixSpec d := by
  have hd := dayNumber_int d h hfy
  show toString (fiscalYearSpec d) ++ "D" ++
      pyFmt0 3 (((toOrdinal d : Int) - (toOrdinal ⟨fiscalYearSpec d, 5, 1⟩ : Int)) + 1)
    = prophixSpec d
  rw [hd, prophixSpec, pyFmt0, if_neg (by omega), Int.toNat_natCast]

/-! ## Shared mapper lemmas -/

/-- A row emitted for a target carries that target's canonical name. -/
theorem emitRow_location {rows : List Record} {rm : Record} {pfx ds : String}
    {t : String × List String × Bool} {r : OutputRow}
    (h : emitRow rows rm pfx ds t = some r) : r.location = t.1 := by
  rw [emitRow] at h
  cases hf : (if t.2.2 && (t.1 == "Raymer") then some rm
      else rows.find? (fun r => matchesAny t.2.1 r)) with
  | none => rw [hf] at h; simp at h
  | some st => rw [hf] at h; simp at h; rw [← h, mkRow]

/-- The emitted locations are a subsequence of the scanned target names. -/
theorem map_location_sublist (ts : List (String × List String × Bool))
    (rows : List Record) (rm : Record) (pfx ds : String) :
    ((ts.filterMap (emitRow rows rm pfx ds)).map (fun r => r.location)).Sublist
      (ts.map (fun t => t.1)) := by
  induction ts with
  | nil => simp
  | cons a l ih =>
    cases h : emitRow rows rm pfx ds a with
    | none =>
      rw [List.filterMap_cons_none h, List.map_cons]
      exact (ih).cons _
    | some r =>
      rw [List.filterMap_cons_some h, List.map_cons, List.map_cons, emitRow_location h]
      exact ih.cons₂ _

/-- Filtering the emitted rows by location is filtering the target table
by name first. -/
theorem filter_loc (rows : List Record) (rm : Record) (pfx ds loc : String)
    (ts : List (String × List String × Bool)) :
    (ts.filterMap (emitRow rows rm pfx ds)).filter (fun r => r.location == loc)
      = (ts.filter (fun t => t.1 == loc)).filterMap (emitRow rows rm pfx ds) := by
  induction ts with
  | nil => rfl
  | cons a l ih =>
    rw [List.filter_cons]
    cases h : emitRow rows rm pfx ds a with
    | none =>
      rw [List.filterMap_cons_none h]
      by_cases ha : (a.1 == loc) = true
      · rw [if_pos ha, List.filterMap_cons_none h]
        exact ih
      · rw [if_neg ha]
        exact ih
    | some r =>
      rw [List.filterMap_cons_some h, List.filter_cons, emitRow_location h]
      by_cases ha : (a.1 == loc) = true
      · rw [if_pos ha, if_pos ha, List.filterMap_cons_some h, ih]
      · rw [if_neg ha, if_neg ha, ih]

/-- A target whose scan finds nothing can be dropped from the table. -/
theorem filterMap_middle_none {α β : Type} (f : α → Option β) (l1 l2 : List α) (a : α)
    (ha : f a = none) : (l1 ++ a :: l2).filterMap f = (l1 ++ l2).filterMap f := by
  rw [List.filterMap_append, List.filterMap_append, List.filterMap_cons_none ha]

/-- A non-Raymer target none of whose keywords matches any payload record
contributes nothing: the whole scan equals the scan of the other targets. -/
theorem drop_target (p : JPayload) (d : Date) (tn : String) (kws : List String)
    (l1 l2 : List (String × List String × Bool))
    (hsplit : target_defs = l1 ++ (tn, kws, false) :: l2)
    (hfilter : target_defs.filter (fun t => !(t.1 == tn)) = l1 ++ l2)
    (hnotin : tn ∉ (l1 ++ l2).map (fun t => t.1))
    (hT : p.isTruthy = true) (hD : p.hasData = true)
    (hnb : ∀ r ∈ p.data, matchesAny kws r = false) :
    process_data p d
      = (target_defs.filter (fun t => !(t.1 == tn))).filterMap
          (emitRow p.data (raymerMerged p.data) (get_prophix_date d) (dateStr d)) ∧
    tn ∉ (process_data p d).map (fun r => r.location) := by
  have hb : emitRow p.data (raymerMerged p.data) (get_prophix_date d) (dateStr d)
      (tn, kws, false) = none := by
    rw [emitRow]
    have hf : p.data.find? (fun r => matchesAny kws r) = none :=
      List.find?_eq_none.mpr (fun x hx => by simp [hnb x hx])
    simp [hf]
  have hmain : process_data p d
      = (target_defs.filter (fun t => !(t.1 == tn))).filterMap
          (emitRow p.data (raymerMerged p.data) (get_prophix_date d) (dateStr d)) := by
    rw [process_data, hT, hD]
    simp only [Bool.not_true, Bool.or_self]
    rw [if_neg Bool.false_ne_true, hfilter, hsplit, filterMap_middle_none _ _ _ _ hb]
  refine ⟨hmain, fun hmem2 => ?_⟩
  rw [hmain, hfilter] at hmem2
  have hsub := map_location_sublist (l1 ++ l2) p.data (raymerMerged p.data)
    (get_prophix_date d) (dateStr d)
  exact hnotin (hsub.subset hmem2)

/-- `List.find?` returns exactly the first element satisfying the
predicate, in list order. -/
theorem find?_first_iff {α : Type} (l : List α) (pred : α → Bool) (x : α) :
    l.find? pred = some x ↔
      ∃ i, ∃ hi : i < l.length, pred (l.get ⟨i, hi⟩) = true ∧ x = l.get ⟨i, hi⟩ ∧
        ∀ j, ∀ hj : j < l.length, j < i → pred (l.get ⟨j, hj⟩) = false := by
  induction l with
  | nil => simp [List.find?]
  | cons a t ih =>
    by_cases hp : pred a = true
    · rw [List.find?_cons_of_pos _ hp]
      constructor
      · intro h
        refine ⟨0, by simp, by simpa using hp, by simpa using (Option.some_inj.mp h).symm,
          fun j hj hj0 => absurd hj0 (by omega)⟩
      · rintro ⟨i, hi, hpi, hx, hfirst⟩
        cases i with
        | zero => simpa using congrArg some hx.symm
        | succ n => exact absurd hp (by simpa using hfirst 0 (by simp) (by omega))
    · rw [List.find?_cons_of_neg _ hp, ih]
      constructor
      · rintro ⟨i, hi, hpi, hx, hfirst⟩
        refine ⟨i + 1, by simpa using hi, by simpa using hpi, by simpa using hx, ?_⟩
        intro j hj hlt
        cases j with
        | zero => simpa using hp
        | succ m => simpa using hfirst m (by simpa using hj) (by omega)
      · rintro ⟨i, hi, hpi, hx, hfirst⟩
        cases i with
        | zero => exact absurd (by simpa using hpi) hp
        | succ n =>
          refine ⟨n, by simpa using hi, by simpa using hpi, by simpa using hx, ?_⟩
          intro j hj hlt
          simpa using hfirst (j + 1) (by simpa using hj) (by omega)

/-! ## The claims -/

/-- C1: `get_prophix_date` returns `{fiscalYear}D{dayNumber}` with the day
number zero-padded to three digits, where the fiscal year is the calendar
year for May-or-later dates and the previous year otherwise, and the day
number is the calendar-day distance from May 1 of the fiscal year plus
one; in particular May 1 2026 gives `"2026D001"` and Apr 30 2026 gives
`"2025D365"`. -/
theorem claim_C1 (d : Date) (h : d.Valid) (hfy : 1 ≤ fiscalYearSpec d) :
    get_prophix_date d = prophixSpec d ∧
    get_prophix_date ⟨2026, 5, 1⟩ = "2026D001" ∧
    get_prophix_date ⟨2026, 4, 30⟩ = "2025D365" :=
  ⟨get_prophix_eq d h hfy, by decide, by decide⟩

theorem claim_C1_witness :
    Date.Valid ⟨2026, 4, 30⟩ ∧ 1 ≤ fiscalYearSpec ⟨2026, 4, 30⟩ ∧
      get_prophix_date ⟨2026, 4, 30⟩ = prophixSpec ⟨2026, 4, 30⟩ :=
  ⟨by decide, by decide, (claim_C1 ⟨2026, 4, 30⟩ (by decide) (by decide)).1⟩

/-- C2: in the synthesized Raymer record the temperature fields come from
the first `"raymer 9,360"` station, the wind fields from the first
`"raymer wind"` station, and each snow field is the temperature-source
value when that value is non-empty (Python-truthy), otherwise the
wind-source value, and is empty when both sources leave it empty. -/
theorem claim_C2 (rows : List Record) (rt rwind : Record)
    (ht : rows.find? (fun r => pyIn "raymer 9,360" (dName r)) = some rt)
    (hw : rows.find? (fun r => pyIn "raymer wind" (dName r)) = some rwind) :
    (raymerMerged rows).maxtemp = some (getN rt.maxtemp) ∧
    (raymerMerged rows).mintemp = some (getN rt.mintemp) ∧
    (raymerMerged rows).avewindspd = some (getN rwind.avewindspd) ∧
    (raymerMerged rows).maxgust = some (getN rwind.maxgust) ∧
    (raymerMerged rows).ttlwindmiles = some (getN rwind.ttlwindmiles) ∧
    ((getN rt.newsnow).truthy = true → (raymerMerged rows).newsnow = some (getN rt.newsnow)) ∧
    ((getN rt.newsnow).truthy = false → (raymerMerged rows).newsnow = some (getN rwind.newsnow)) ∧
    ((getN rt.depth).truthy = true → (raymerMerged rows).depth = some (getN rt.depth)) ∧
    ((getN rt.depth).truthy = false → (raymerMerged rows).depth = some (getN rwind.depth)) ∧
    ((getN rt.ttlsnowfall).truthy = true →
      (raymerMerged rows).ttlsnowfall = some (getN rt.ttlsnowfall)) ∧
    ((getN rt.ttlsnowfall).truthy = false →
      (raymerMerged rows).ttlsnowfall = some (getN rwind.ttlsnowfall)) ∧
    ((getN rt.newsnow).truthy = false → (getN rwind.newsnow).truthy = false →
      ∃ v, (raymerMerged rows).newsnow = some v ∧ v.truthy = false) ∧
    ((getN rt.depth).truthy = false → (getN rwind.depth).truthy = false →
      ∃ v, (raymerMerged rows).depth = some v ∧ v.truthy = false) ∧
    ((getN rt.ttlsnowfall).truthy = false → (getN rwind.ttlsnowfall).truthy = false →
      ∃ v, (raymerMerged rows).ttlsnowfall = some v ∧ v.truthy = false) := by
  have hm : raymerMerged rows =
      { display_name := some (.jstr "Raymer")
        maxtemp := some (getN rt.maxtemp)
        mintemp := some (getN rt.mintemp)
        avewindspd := some (getN rwind.avewindspd)
        maxgust := some (getN rwind.maxgust)
        ttlwindmiles := some (getN rwind.ttlwindmiles)
        newsnow := some (pyOr (getN rt.newsnow) (getN rwind.newsnow))
        depth := some (pyOr (getN rt.depth) (getN rwind.depth))
        ttlsnowfall := some (pyOr (getN rt.ttlsnowfall) (getN rwind.ttlsnowfall)) } := by
    simp only [raymerMerged, ht, hw, Option.getD_some]
  rw [hm]
  refine ⟨rfl, rfl, rfl, rfl, rfl, fun h1 => by simp [pyOr, h1], fun h1 => by simp [pyOr, h1],
    fun h1 => by simp [pyOr, h1], fun h1 => by simp [pyOr, h1], fun h1 => by simp [pyOr, h1],
    fun h1 => by simp [pyOr, h1],
    fun h1 h2 => ⟨getN rwind.newsnow, by simp [pyOr, h1], h2⟩,
    fun h1 h2 => ⟨getN rwind.depth, by simp [pyOr, h1], h2⟩,
    fun h1 h2 => ⟨getN rwind.ttlsnowfall, by simp [pyOr, h1], h2⟩⟩

theorem claim_C2_witness :
    (raymerRows.find? (fun r => pyIn "raymer 9,360" (dName r)) = some raymerTempRec) ∧
    (raymerRows.find? (fun r => pyIn "raymer wind" (dName r)) = some raymerWindRec) ∧
    (raymerMerged raymerRows).maxtemp = some (getN raymerTempRec.maxtemp) :=
  ⟨by decide, by decide,
    (claim_C2 raymerRows raymerTempRec raymerWindRec (by decide) (by decide)).1⟩

/-- C3: every emitted row comes from one scanned target, is built by
`mkRow` from the record that target's selection (the `is_merged` branch or
the payload `find?`) actually produced — the selection equation pins that
record — and a metric whose source key is absent from that record is the
empty string, never null. -/
theorem claim_C3 (p : JPayload) (d : Date) (r : OutputRow)
    (hr : r ∈ process_data p d) :
    ∃ t ∈ target_defs, ∃ st : Record,
      (if t.2.2 && (t.1 == "Raymer") then some (raymerMerged p.data)
        else p.data.find? (fun x => matchesAny t.2.1 x)) = some st ∧
      r = mkRow (get_prophix_date d) (dateStr d) t.1 st ∧
      (st.newsnow = none → r.newSno = .jstr "") ∧
      (st.depth = none → r.snoDepth = .jstr "") ∧
      (st.ttlsnowfall = none → r.snoFallTot = .jstr "") ∧
      (st.maxtemp = none → r.maxTemp = .jstr "") ∧
      (st.mintemp = none → r.minTemp = .jstr "") ∧
      (st.avewindspd = none → r.avgWind = .jstr "") ∧
      (st.maxgust = none → r.maxGust = .jstr "") ∧
      (st.ttlwindmiles = none → r.totalWind = .jstr "") := by
  rw [process_data] at hr
  by_cases hg : (!p.isTruthy || !p.hasData) = true
  · rw [if_pos hg] at hr; simp at hr
  · rw [if_neg hg] at hr
    obtain ⟨t, htm, het⟩ := List.mem_filterMap.mp hr
    rw [emitRow] at het
    cases hf : (if t.2.2 && (t.1 == "Raymer") then some (raymerMerged p.data)
        else p.data.find? (fun x => matchesAny t.2.1 x)) with
    | none => rw [hf] at het; simp at het
    | some st =>
      rw [hf] at het
      simp only [Option.map_some', Option.some_inj] at het
      refine ⟨t, htm, st, hf, het.symm, ?_, ?_, ?_, ?_, ?_, ?_, ?_, ?_⟩ <;>
        intro h <;> rw [← het] <;> simp [mkRow, getE, h]

theorem claim_C3_witness :
    rayOnlyRow ∈ process_data emptyDataPayload exampleDate ∧
      ∃ t ∈ target_defs, ∃ st : Record,
        (if t.2.2 && (t.1 == "Raymer") then some (raymerMerged emptyDataPayload.data)
          else emptyDataPayload.data.find? (fun x => matchesAny t.2.1 x)) = some st ∧
        rayOnlyRow = mkRow (get_prophix_date exampleDate) (dateStr exampleDate) t.1 st ∧
        (st.newsnow = none → rayOnlyRow.newSno = .jstr "") ∧
        (st.depth = none → rayOnlyRow.snoDepth = .jstr "") ∧
        (st.ttlsnowfall = none → rayOnlyRow.snoFallTot = .jstr "") ∧
        (st.maxtemp = none → rayOnlyRow.maxTemp = .jstr "") ∧
        (st.mintemp = none → rayOnlyRow.minTemp = .jstr "") ∧
        (st.avewindspd = none → rayOnlyRow.avgWind = .jstr "") ∧
        (st.maxgust = none → rayOnlyRow.maxGust = .jstr "") ∧
        (st.ttlwindmiles = none → rayOnlyRow.totalWind = .jstr "") :=
  ⟨by decide, claim_C3 emptyDataPayload exampleDate rayOnlyRow (by decide)⟩

/-- C4: a non-Raymer target selects exactly `List.find?` of the keyword
match over the payload, `find?` returns the first match in payload order,
and matching is case-insensitive and substring-based, as the
`"RENDEZVOUS BOWL Upper"` example shows. -/
theorem claim_C4 (rows : List Record) (rm : Record) (pfx ds tn : String) (kws : List String)
    (_hmem : (tn, kws, false) ∈ target_defs) :
    (emitRow rows rm pfx ds (tn, kws, false)
        = (rows.find? (fun r => matchesAny kws r)).map (mkRow pfx ds tn)) ∧
    (∀ st : Record, rows.find? (fun r => matchesAny kws r) = some st ↔
        ∃ i, ∃ hi : i < rows.length, matchesAny kws (rows.get ⟨i, hi⟩) = true ∧
          st = rows.get ⟨i, hi⟩ ∧
          ∀ j, ∀ hj : j < rows.length, j < i → matchesAny kws (rows.get ⟨j, hj⟩) = false) ∧
    matchesAny ["rbowl", "rendezvous bowl"] rvBowlStation = true :=
  ⟨rfl, fun st => find?_first_iff rows _ st, by decide⟩

theorem claim_C4_witness :
    (("Buff", ["buff"], false) ∈ target_defs) ∧
      (emitRow exampleRows (raymerMerged exampleRows) "p" "q" ("Buff", ["buff"], false)
        = (exampleRows.find? (fun r => matchesAny ["buff"] r)).map (mkRow "p" "q" "Buff")) ∧
      matchesAny ["rbowl", "rendezvous bowl"] rvBowlStation = true := by
  refine ⟨by decide, ?_, ?_⟩
  · exact (claim_C4 exampleRows (raymerMerged exampleRows) "p" "q" "Buff" ["buff"]
      (by decide)).1
  · exact (claim_C4 exampleRows (raymerMerged exampleRows) "p" "q" "Buff" ["buff"]
      (by decide)).2.2

/-- C5: a falsy payload or one without the `'data'` key makes the mapper
return zero rows (and, being a total function, raise nothing). -/
theorem claim_C5 (p : JPayload) (d : Date)
    (h : p.isTruthy = false ∨ p.hasData = false) :
    process_data p d = [] := by
  rw [process_data]
  rcases h with h | h <;> simp [h]

theorem claim_C5_witness :
    (malformedPayload.isTruthy = false ∨ malformedPayload.hasData = false) ∧
      process_data malformedPayload exampleDate = [] :=
  ⟨Or.inr rfl, claim_C5 malformedPayload exampleDate (Or.inr rfl)⟩

/-- C6: for every non-Raymer target location, if no payload record's
lower-cased display name contains any of that location's keywords, the
location contributes no row and the output equals the undisturbed scan of
the remaining targets. -/
theorem claim_C6 (p : JPayload) (d : Date) (tn : String) (kws : List String)
    (hmem : (tn, kws, false) ∈ target_defs)
    (hT : p.isTruthy = true) (hD : p.hasData = true)
    (hnb : ∀ r ∈ p.data, matchesAny kws r = false) :
    process_data p d
      = (target_defs.filter (fun t => !(t.1 == tn))).filterMap
          (emitRow p.data (raymerMerged p.data) (get_prophix_date d) (dateStr d)) ∧
    tn ∉ (process_data p d).map (fun r => r.location) := by
  simp only [target_defs, List.mem_cons, List.not_mem_nil, or_false, Prod.mk.injEq] at hmem
  rcases hmem with ⟨rfl, rfl, -⟩ | ⟨rfl, rfl, -⟩ | ⟨-, -, h⟩ | ⟨rfl, rfl, -⟩ |
      ⟨rfl, rfl, -⟩ | ⟨rfl, rfl, -⟩
  · exact drop_target p d _ _
      []
      [("RV_Bowl", ["rbowl", "rendezvous bowl"], false), ("Raymer", [], true),
       ("MidMtn", ["mid mtn", "mid mountain"], false), ("Buff", ["buff"], false),
       ("Base", ["base"], false)]
      rfl rfl (by decide) hT hD hnb
  · exact drop_target p d _ _
      [("Summit", ["summit"], false)]
      [("Raymer", [], true), ("MidMtn", ["mid mtn", "mid mountain"], false),
       ("Buff", ["buff"], false), ("Base", ["base"], false)]
      rfl rfl (by decide) hT hD hnb
  · exact absurd h (by decide)
  · exact drop_target p d _ _
      [("Summit", ["summit"], false), ("RV_Bowl", ["rbowl", "rendezvous bowl"], false),
       ("Raymer", [], true)]
      [("Buff", ["buff"], false), ("Base", ["base"], false)]
      rfl rfl (by decide) hT hD hnb
  · exact drop_target p d _ _
      [("Summit", ["summit"], false), ("RV_Bowl", ["rbowl", "rendezvous bowl"], false),
       ("Raymer", [], true), ("MidMtn", ["mid mtn", "mid mountain"], false)]
      [("Base", ["base"], false)]
      rfl rfl (by decide) hT hD hnb
  · exact drop_target p d _ _
      [("Summit", ["summit"], false), ("RV_Bowl", ["rbowl", "rendezvous bowl"], false),
       ("Raymer", [], true), ("MidMtn", ["mid mtn", "mid mountain"], false),
       ("Buff", ["buff"], false)]
      []
      rfl rfl (by decide) hT hD hnb

theorem claim_C6_witness :
    (("Buff", ["buff"], false) ∈ target_defs) ∧
      examplePayload.isTruthy = true ∧ examplePayload.hasData = true ∧
      (∀ r ∈ examplePayload.data, matchesAny ["buff"] r = false) ∧
      "Buff" ∉ (process_data examplePayload exampleDate).map (fun r => r.location) ∧
      (process_data examplePayload exampleDate).length = 5 :=
  ⟨by decide, rfl, rfl, by decide,
    (claim_C6 examplePayload exampleDate "Buff" ["buff"] (by decide) rfl rfl (by decide)).2,
    by decide⟩

/-- C7: whenever the payload guard passes, the mapper emits exactly one
Raymer row, and that row is built from the synthesized Raymer record,
whether or not any Raymer station exists in the payload. -/
theorem claim_C7 (p : JPayload) (d : Date)
    (hT : p.isTruthy = true) (hD : p.hasData = true) :
    (process_data p d).filter (fun r => r.location == "Raymer")
      = [mkRow (get_prophix_date d) (dateStr d) "Raymer" (raymerMerged p.data)] := by
  rw [process_data, hT, hD]
  simp only [Bool.not_true, Bool.or_self]
  rw [if_neg Bool.false_ne_true, filter_loc]
  rfl

theorem claim_C7_witness :
    examplePayload.isTruthy = true ∧ examplePayload.hasData = true ∧
      (process_data examplePayload exampleDate).filter (fun r => r.location == "Raymer")
        = [mkRow (get_prophix_date exampleDate) (dateStr exampleDate) "Raymer"
            (raymerMerged examplePayload.data)] :=
  ⟨rfl, rfl, claim_C7 examplePayload exampleDate rfl rfl⟩

/-- C8: an append to a nonexistent table writes the fixed header line and
then the data lines; an append to an existing table appends exactly the
data lines and nothing else. -/
theorem claim_C8 (rows : List OutputRow) (ls : List String) :
    writeCsv none rows = csvHeader :: rows.map csvLine ∧
    writeCsv (some ls) rows = ls ++ rows.map csvLine ∧
    (writeCsv (some ls) rows).drop ls.length = rows.map csvLine ∧
    (rows.map csvLine).length = rows.length ∧
    csvHeader =
      "ProphixDate,Date,Location,NewSno,SnoDepth,SnoFall Tot,Max Temp,Min Temp,AvgWind,MaxGust,TotalWind" :=
  ⟨rfl, rfl, by rw [writeCsv, List.drop_left], List.length_map _ _, rfl⟩

/-- C9: for every payload the emitted rows follow the fixed target order
{Summit, RV_Bowl, Raymer, MidMtn, Buff, Base}, missing targets omitted. -/
theorem claim_C9 (p : JPayload) (d : Date) :
    ((process_data p d).map (fun r => r.location)).Sublist
      ["Summit", "RV_Bowl", "Raymer", "MidMtn", "Buff", "Base"] := by
  rw [process_data]
  by_cases hg : (!p.isTruthy || !p.hasData) = true
  · rw [if_pos hg]; simp
  · rw [if_neg hg]
    have h := map_location_sublist target_defs p.data (raymerMerged p.data)
      (get_prophix_date d) (dateStr d)
    simpa using h

/-- C10: on any payload — records may lack any key or hold nulls — the
mapper is total: it returns at most six rows and every row carries one of
the six canonical location names. -/
theorem claim_C10 (p : JPayload) (d : Date) :
    (process_data p d).length ≤ 6 ∧
      ∀ r ∈ process_data p d,
        r.location ∈ ["Summit", "RV_Bowl", "Raymer", "MidMtn", "Buff", "Base"] := by
  constructor
  · rw [process_data]
    by_cases hg : (!p.isTruthy || !p.hasData) = true
    · rw [if_pos hg]; simp
    · rw [if_neg hg]
      exact le_trans (List.length_filterMap_le _ _) (by rw [target_defs]; rfl)
  · intro r hr
    rw [process_data] at hr
    by_cases hg : (!p.isTruthy || !p.hasData) = true
    · rw [if_pos hg] at hr; simp at hr
    · rw [if_neg hg] at hr
      have hsub := map_location_sublist target_defs p.data (raymerMerged p.data)
        (get_prophix_date d) (dateStr d)
      have hmem : r.location ∈ (target_defs.map (fun t => t.1)) :=
        hsub.subset (List.mem_map_of_mem _ hr)
      simpa [target_defs] using hmem

theorem claim_C10_witness :
    (process_data weirdPayload exampleDate).length ≤ 6 ∧
      rayOnlyRow.location ∈ ["Summit", "RV_Bowl", "Raymer", "MidMtn", "Buff", "Base"] :=
  ⟨(claim_C10 weirdPayload exampleDate).1,
    (claim_C10 emptyDataPayload exampleDate).2 rayOnlyRow (by decide)⟩

end WeatherScrape
